import Mathlib

/-!
# Verification of the App Store availability monitor

Shallow embedding of `src/main.py` (class `AppStoreMonitor`): the prober
(`check_app_availability`), the confirmation engine (`confirm_status_change`),
the per-app sweep of `check_apps` (change detection, confirmation,
reconciliation, persistence, notification), the Telegram fan-out
(`send_telegram_message`) together with the chat-registry operations, and the
sheet row parsing (`read_sheet_data`) / formatting (`update_sheet`).

The network is modelled as an oracle: each HTTP request the program would make
is answered by a supplied function, so a run of the embedded code is a pure
value parameterised by that oracle.
-/

namespace AppStoreMonitor

/-- `CONFIRMATION_CHECKS = 5` (main.py line 34). -/
def CONFIRMATION_CHECKS : Nat := 5

/-- The outcome of one `requests.get` call inside `check_app_availability`
(main.py lines 162-194): an HTTP status code, a `requests.Timeout`, or another
`requests.RequestException`. -/
inductive HttpOutcome where
  | status (code : Nat)
  | timeout
  | netError
deriving DecidableEq, Repr

/-- Classification of a single attempt in `check_app_availability`
(main.py lines 165-194): `some b` means the loop returns `b` at this attempt,
`none` means the attempt is transient (server error `>= 500`, timeout or
network exception) and the loop retries if attempts remain. -/
def attemptResult (o : HttpOutcome) : Option Bool :=
  match o with
  | .status code =>
      if code = 404 then some false
      else if code = 200 then some true
      else if code ≥ 500 then none
      else some false
  | .timeout => none
  | .netError => none

/-- The retry loop of `check_app_availability` (main.py lines 150-198), with
`fuel` attempts remaining. Each transient attempt that is not the last sleeps
5 seconds (`time.sleep(5)`); the returned `Nat` is the total seconds slept.
Exhausting all attempts yields `false` (line 198). -/
def checkLoop : Nat → List HttpOutcome → Bool × Nat
  | 0, _ => (false, 0)
  | _ + 1, [] => (false, 0)
  | n + 1, o :: rest =>
      match attemptResult o with
      | some b => (b, 0)
      | none =>
          if n = 0 then (false, 0)
          else
            let r := checkLoop n rest
            (r.1, r.2 + 5)

/-- `check_app_availability` (main.py lines 146-198), with the successive HTTP
outcomes it would observe supplied as a list: three attempts total, returning
the availability boolean and the total seconds slept between attempts. -/
def check_app_availability (probes : List HttpOutcome) : Bool × Nat :=
  checkLoop 3 probes

/-- `confirm_status_change` (main.py lines 200-222): runs
`CONFIRMATION_CHECKS` additional probes (sample `i` of the oracle `conf` is
the boolean returned by `check_app_availability` at confirmation check `i`),
counts how many equal `expected_status`, and confirms when the count reaches
`(CONFIRMATION_CHECKS + 1) / 2`. -/
def confirm_status_change (conf : Nat → Bool) (expected_status : Bool) : Bool :=
  let confirmed_count :=
    (List.range CONFIRMATION_CHECKS).countP (fun i => conf i == expected_status)
  let confirmation_threshold := (CONFIRMATION_CHECKS + 1) / 2
  confirmed_count ≥ confirmation_threshold

/-- The number of confirmation samples matching the expected status. -/
def matchCount (conf : Nat → Bool) (expected_status : Bool) : Nat :=
  (List.range CONFIRMATION_CHECKS).countP (fun i => conf i == expected_status)

/-- One parsed app row, as produced by `read_sheet_data`
(main.py lines 242-260). `custom_fields` keeps insertion order. -/
structure AppData where
  app_id : String
  app_name : String
  is_available : Bool
  last_update : Option String
  geos : List String
  custom_fields : List (String × String)
deriving DecidableEq, Repr

/-- One entry of the `status_changes` list built in `check_apps`
(main.py lines 376-380). -/
structure StatusChange where
  geo : String
  old_status : Bool
  new_status : Bool
deriving DecidableEq, Repr

/-- Observable effects of one iteration of the per-app loop of `check_apps`:
the raw flip candidates, the confirmed changes, the value written by
`update_sheet` (if any), whether the Telegram/Discord notification was sent,
and how many availability probes were issued. -/
structure SweepResult where
  status_changes : List StatusChange
  confirmed_changes : List StatusChange
  write : Option Bool
  notified : Bool
  probes : Nat
deriving DecidableEq, Repr

/-- The per-region resolution used when recomputing the final status
(main.py lines 408-418): a region with a confirmed change uses the confirmed
new status, every other region uses `current_status` from the sheet. -/
def resolvedStatus (confirmed_changes : List StatusChange)
    (current_status : Bool) (geo : String) : Bool :=
  match confirmed_changes.find? (fun c => c.geo == geo) with
  | some c => c.new_status
  | none => current_status

/-- One iteration of the per-app loop of `check_apps` (main.py lines
352-457). `raw geo` is the boolean returned by `check_app_availability` for
the sweep probe of `geo`; `conf geo i` is the boolean returned by
confirmation check `i` of `geo` inside `confirm_status_change`. -/
def check_apps_one (raw : String → Bool) (conf : String → Nat → Bool)
    (app : AppData) : SweepResult :=
  let current_status := app.is_available
  let geos := app.geos
  let status_changes := geos.filterMap (fun geo =>
    let is_available := raw geo
    if is_available ≠ current_status then
      some ⟨geo, current_status, is_available⟩
    else
      none)
  if status_changes.isEmpty then
    { status_changes := status_changes, confirmed_changes := [],
      write := none, notified := false, probes := geos.length }
  else
    let confirmed_changes := status_changes.filter
      (fun change => confirm_status_change (conf change.geo) change.new_status)
    let probes := geos.length + CONFIRMATION_CHECKS * status_changes.length
    if confirmed_changes.isEmpty then
      { status_changes := status_changes, confirmed_changes := confirmed_changes,
        write := none, notified := false, probes := probes }
    else
      let final_available_geos := geos.filter
        (fun geo => resolvedStatus confirmed_changes current_status geo)
      let final_status := decide (final_available_geos.length > 0)
      { status_changes := status_changes, confirmed_changes := confirmed_changes,
        write := some final_status, notified := true, probes := probes }

/-- `s.lower()` as used by main.py lines 246 and 304, modelled per character
(the strings compared by the program are ASCII). -/
def lowerString (s : String) : String :=
  String.mk (s.data.map Char.toLower)

/-- Whether `pattern` is an initial segment of `text`. -/
def beginsWith : List Char → List Char → Bool
  | [], _ => true
  | _ :: _, [] => false
  | p :: ps, c :: cs => p == c && beginsWith ps cs

/-- Whether `pattern` occurs contiguously inside `text`: the `in` test Python
applies to strings. -/
def containsSub : List Char → List Char → Bool
  | [], pattern => pattern.isEmpty
  | c :: rest, pattern => beginsWith pattern (c :: rest) || containsSub rest pattern

/-- The deregistration test of `send_telegram_message` (main.py line 304):
the delivery error text, lowercased, contains "bot was blocked by the user"
or "chat not found". -/
def isGoneError (msg : String) : Bool :=
  let m := lowerString msg
  containsSub m.data "bot was blocked by the user".data
    || containsSub m.data "chat not found".data

/-- What the Telegram transport reports for one `bot.send_message` call:
success, or an exception carrying its message text. -/
inductive SendOutcome where
  | ok
  | err (msg : String)
deriving DecidableEq, Repr

/-- Whether the transport outcome for `chat_id` marks the chat for removal
(main.py lines 301-305). -/
def goneFor (outcome : Int → SendOutcome) (chat_id : Int) : Bool :=
  match outcome chat_id with
  | .ok => false
  | .err msg => isGoneError msg

/-- Observable effects of `send_telegram_message`: the chats a delivery was
attempted to, in iteration order, and the active chat set after the loop. -/
structure TelegramSendResult where
  attempted : List Int
  active : List Int
deriving DecidableEq, Repr

/-- One iteration of the delivery loop of `send_telegram_message`
(main.py lines 294-305): the state is (chats attempted so far,
`chats_to_remove` so far). A failed delivery appends to `chats_to_remove`
when the error is a "gone" error and otherwise only logs. -/
def telegramStep (outcome : Int → SendOutcome)
    (st : List Int × List Int) (chat_id : Int) : List Int × List Int :=
  let attempted := st.1 ++ [chat_id]
  match outcome chat_id with
  | .ok => (attempted, st.2)
  | .err msg =>
      if isGoneError msg then (attempted, st.2 ++ [chat_id])
      else (attempted, st.2)

/-- `send_telegram_message` (main.py lines 287-309) over the active chat set,
represented as a duplicate-free list: the loop visits every chat of a copy of
the set, then the chats marked for removal are discarded. `outcome chat_id`
is the transport's response for `chat_id`. -/
def send_telegram_message (outcome : Int → SendOutcome)
    (active_chats : List Int) : TelegramSendResult :=
  let r := active_chats.foldl (telegramStep outcome) ([], [])
  { attempted := r.1,
    active := active_chats.filter (fun c => !(decide (c ∈ r.2))) }

/-- An event that can touch the active chat set after startup: a sweep
notification with the transport outcomes it observes (main.py lines 287-309),
or a `/start` registration (main.py lines 89-98). -/
inductive ChatOp where
  | notify (outcome : Int → SendOutcome)
  | register (chat_id : Int)

/-- Effect of one event on the active chat set: registration is
`self.active_chats.add(chat_id)` (main.py line 95), a notification applies
`send_telegram_message`. -/
def applyChatOp (active_chats : List Int) : ChatOp → List Int
  | .notify outcome => (send_telegram_message outcome active_chats).active
  | .register chat_id =>
      if chat_id ∈ active_chats then active_chats
      else active_chats ++ [chat_id]

/-- The active chat set after a sequence of events. -/
def runChatOps (active_chats : List Int) (ops : List ChatOp) : List Int :=
  ops.foldl applyChatOp active_chats

/-- `str(is_available).lower()` as written to column C by `update_sheet`
(main.py line 274). -/
def format_available (is_available : Bool) : String :=
  if is_available then "true" else "false"

/-- The availability parse rule of `read_sheet_data` (main.py line 246):
`row[2].lower() == 'true'`. -/
def parse_available (cell : String) : Bool :=
  lowerString cell == "true"

/-- Parsing of one data row by `read_sheet_data` (main.py lines 242-258);
`headers` is the sheet's first row. Missing cells fall back to the defaults
of the conditional expressions; columns F onwards become custom fields when
both the header and the cell are non-empty. -/
def parseRow (headers : List String) (row : List String) : AppData :=
  { app_id := if row.length > 0 then row.getD 0 "" else "",
    app_name := if row.length > 1 then row.getD 1 "" else "Unknown App",
    is_available :=
      if row.length > 2 then parse_available (row.getD 2 "") else false,
    last_update := if row.length > 3 then some (row.getD 3 "") else none,
    geos :=
      if row.length > 4 then
        ((row.getD 4 "").splitOn ",").map (fun g => g.trim)
      else [],
    custom_fields := (List.range row.length).filterMap (fun col_index =>
      if col_index < 5 then none
      else if col_index < headers.length ∧ row.getD col_index "" ≠ "" then
        let field_name := headers.getD col_index ""
        let field_value := row.getD col_index ""
        if field_name ≠ "" ∧ field_value ≠ "" then
          some (field_name, field_value)
        else none
      else none) }

end AppStoreMonitor

open AppStoreMonitor

/-- **C2.** For every oracle of confirmation probe outcomes and expected
status, `confirm_status_change` returns true iff at least 3 of the 5 samples
equal `expected_status`; exactly 3 matches confirm, exactly 2 do not; and the
result depends only on the first 5 samples (exactly 5 additional probes are
consulted). -/
theorem confirm_majority_rule (conf conf' : Nat → Bool) (e : Bool)
    (hagree : ∀ i, i < CONFIRMATION_CHECKS → conf i = conf' i) :
    (confirm_status_change conf e = true ↔ 3 ≤ matchCount conf e)
    ∧ (matchCount conf e = 3 → confirm_status_change conf e = true)
    ∧ (matchCount conf e = 2 → confirm_status_change conf e = false)
    ∧ confirm_status_change conf e = confirm_status_change conf' e := by
  have key : ∀ g : Nat → Bool,
      confirm_status_change g e = decide (3 ≤ matchCount g e) := fun _ => rfl
  have hcnt : matchCount conf e = matchCount conf' e := by
    unfold matchCount
    refine List.countP_congr ?_
    intro i hi
    rw [hagree i (by simpa using List.mem_range.mp hi)]
  refine ⟨?_, ?_, ?_, ?_⟩
  · rw [key]
    simp
  · intro h3
    rw [key, h3]
    decide
  · intro h2
    rw [key, h2]
    decide
  · rw [key, key, hcnt]

/-- Witness for `confirm_majority_rule` at a concrete oracle: samples
`true, true, true, false, false` against expected status `true`. -/
theorem confirm_majority_rule_witness :
    (∀ i, i < CONFIRMATION_CHECKS → (fun j => decide (j < 3)) i = (fun j => decide (j < 3)) i)
    ∧ ((confirm_status_change (fun j => decide (j < 3)) true = true
          ↔ 3 ≤ matchCount (fun j => decide (j < 3)) true)
        ∧ (matchCount (fun j => decide (j < 3)) true = 3
            → confirm_status_change (fun j => decide (j < 3)) true = true)
        ∧ (matchCount (fun j => decide (j < 3)) true = 2
            → confirm_status_change (fun j => decide (j < 3)) true = false)
        ∧ confirm_status_change (fun j => decide (j < 3)) true
            = confirm_status_change (fun j => decide (j < 3)) true) :=
  ⟨fun _ _ => rfl,
   confirm_majority_rule (fun j => decide (j < 3)) (fun j => decide (j < 3)) true
     (fun _ _ => rfl)⟩

/-- **C4.** Single-probe behaviour of `check_app_availability`: 404 returns
false immediately, 200 returns true immediately, a server error `>= 500`
retries after a 5-second sleep, any other status code returns false
immediately, a timeout or network exception retries after a 5-second sleep,
and three transient outcomes in a row exhaust the attempts and return false
after two 5-second sleeps; the function is total, so no exception reaches the
caller. -/
theorem check_app_availability_spec (rest : List HttpOutcome)
    (c : Nat) (o1 o2 o3 : HttpOutcome) (b : Bool)
    (hc500 : c ≥ 500)
    (ht1 : attemptResult o1 = none) (ht2 : attemptResult o2 = none) :
    check_app_availability (.status 404 :: rest) = (false, 0)
    ∧ check_app_availability (.status 200 :: rest) = (true, 0)
    ∧ check_app_availability (.status c :: rest)
        = ((checkLoop 2 rest).1, (checkLoop 2 rest).2 + 5)
    ∧ (∀ c', c' ≠ 404 → c' ≠ 200 → c' < 500 →
        check_app_availability (.status c' :: rest) = (false, 0))
    ∧ (attemptResult o3 = some b →
        check_app_availability (o1 :: o2 :: o3 :: rest) = (b, 10))
    ∧ (attemptResult o3 = none →
        check_app_availability (o1 :: o2 :: o3 :: rest) = (false, 10)) := by
  have h404 : check_app_availability (.status 404 :: rest) = (false, 0) := by
    simp [check_app_availability, checkLoop, attemptResult]
  have h200 : check_app_availability (.status 200 :: rest) = (true, 0) := by
    simp [check_app_availability, checkLoop, attemptResult]
  have h500 : check_app_availability (.status c :: rest)
      = ((checkLoop 2 rest).1, (checkLoop 2 rest).2 + 5) := by
    have hne404 : c ≠ 404 := by omega
    have hne200 : c ≠ 200 := by omega
    simp [check_app_availability, checkLoop, attemptResult, hne404, hne200, hc500]
  have hother : ∀ c', c' ≠ 404 → c' ≠ 200 → c' < 500 →
      check_app_availability (.status c' :: rest) = (false, 0) := by
    intro c' h1 h2 h3
    have hnot : ¬ c' ≥ 500 := by omega
    simp [check_app_availability, checkLoop, attemptResult, h1, h2, hnot]
  refine ⟨h404, h200, h500, hother, ?_, ?_⟩
  · intro hb
    simp [check_app_availability, checkLoop, ht1, ht2, hb]
  · intro h3
    simp [check_app_availability, checkLoop, ht1, ht2, h3]

/-- Witness for `check_app_availability_spec` at concrete outcomes: status
code 503 for the server-error clause and timeout/network-error/timeout for
the transient clauses. -/
theorem check_app_availability_spec_witness :
    check_app_availability [.status 404] = (false, 0)
    ∧ check_app_availability [.status 200] = (true, 0)
    ∧ check_app_availability [.status 503]
        = ((checkLoop 2 []).1, (checkLoop 2 []).2 + 5)
    ∧ (∀ c', c' ≠ 404 → c' ≠ 200 → c' < 500 →
        check_app_availability [.status c'] = (false, 0))
    ∧ (attemptResult .timeout = some true →
        check_app_availability [.timeout, .netError, .timeout] = (true, 10))
    ∧ (attemptResult .timeout = none →
        check_app_availability [.timeout, .netError, .timeout] = (false, 10)) := by
  exact check_app_availability_spec ([] : List HttpOutcome) 503
    .timeout .netError .timeout true (by decide) (by decide) (by decide)

/-- Helper: a filtered list is non-trivial exactly when some element satisfies
the predicate. -/
theorem filter_length_pos_eq_any {α : Type} (l : List α) (p : α → Bool) :
    decide ((l.filter p).length > 0) = l.any p := by
  induction l with
  | nil => rfl
  | cons a t ih =>
      by_cases h : p a = true
      · simp [List.filter_cons, h]
      · simp only [Bool.not_eq_true] at h
        simp [List.filter_cons, h, ih]

/-- **C1 (counterexample).** App tracked in regions `us` and `de` with
persisted availability `true`; the sweep probe sees `us` unavailable and
`de` available and all confirmation probes return `false`, so the flip of
`us` to unavailable is confirmed. The recomputed verdict written to the
sheet equals the persisted value (`true`, because `de` keeps the previous
status), yet the code writes the sheet and sends the notification — refuting
the claim that no write and no notification occur when the recomputed
verdict equals the persisted value. -/
theorem write_despite_equal_verdict_counterexample :
    (check_apps_one (fun geo => geo == "de") (fun _ _ => false)
        ⟨"123456", "Demo", true, none, ["us", "de"], []⟩).confirmed_changes ≠ []
    ∧ (check_apps_one (fun geo => geo == "de") (fun _ _ => false)
        ⟨"123456", "Demo", true, none, ["us", "de"], []⟩).write = some true
    ∧ (check_apps_one (fun geo => geo == "de") (fun _ _ => false)
        ⟨"123456", "Demo", true, none, ["us", "de"], []⟩).notified = true := by
  refine ⟨by decide, by decide, by decide⟩

/-- **C1 (amended).** The sheet write and the notification happen if and only
if at least one change was confirmed: the code never compares the recomputed
verdict with the persisted value, so a write and a notification also occur
when they coincide. -/
theorem write_notify_iff_confirmed (raw : String → Bool)
    (conf : String → Nat → Bool) (app : AppData) :
    (check_apps_one raw conf app).write.isSome
      = !(check_apps_one raw conf app).confirmed_changes.isEmpty
    ∧ (check_apps_one raw conf app).notified
      = !(check_apps_one raw conf app).confirmed_changes.isEmpty := by
  simp only [check_apps_one]
  split
  · exact ⟨rfl, rfl⟩
  · split
    · rename_i h2
      rw [h2]
      exact ⟨rfl, rfl⟩
    · rename_i h2
      simp only [Bool.not_eq_true] at h2
      rw [h2]
      exact ⟨rfl, rfl⟩

/-- **C3.** Whenever at least one change is confirmed, the verdict written to
the sheet is the logical OR over all configured regions of the resolved
status: the confirmed new status for regions with a confirmed change, the
previously persisted status for every other region. -/
theorem final_verdict_is_or_of_resolved (raw : String → Bool)
    (conf : String → Nat → Bool) (app : AppData)
    (h : (check_apps_one raw conf app).confirmed_changes ≠ []) :
    (check_apps_one raw conf app).write
      = some (app.geos.any
          (resolvedStatus (check_apps_one raw conf app).confirmed_changes
            app.is_available)) := by
  simp only [check_apps_one] at h ⊢
  split at h
  · rename_i h1
    exact absurd rfl h
  · rename_i h1
    split at h
    · rename_i h2
      exact absurd (List.isEmpty_iff.mp h2) h
    · rename_i h2
      rw [if_neg h1, if_neg h2]
      show some _ = some _
      rw [filter_length_pos_eq_any]

/-- Witness for `final_verdict_is_or_of_resolved`: one region `us`, persisted
unavailable, raw probe available, all confirmation probes available. -/
theorem final_verdict_is_or_of_resolved_witness :
    (check_apps_one (fun _ => true) (fun _ _ => true)
        ⟨"1", "A", false, none, ["us"], []⟩).confirmed_changes ≠ []
    ∧ (check_apps_one (fun _ => true) (fun _ _ => true)
        ⟨"1", "A", false, none, ["us"], []⟩).write
      = some ((["us"] : List String).any
          (resolvedStatus
            (check_apps_one (fun _ => true) (fun _ _ => true)
              ⟨"1", "A", false, none, ["us"], []⟩).confirmed_changes
            false)) :=
  ⟨by decide,
   final_verdict_is_or_of_resolved (fun _ => true) (fun _ _ => true)
     ⟨"1", "A", false, none, ["us"], []⟩ (by decide)⟩

/-- **C5.** A sweep of an app in which no change candidate is confirmed
(all rejected, or none raised) writes nothing to the sheet and sends no
notification. -/
theorem no_confirmed_changes_no_op (raw : String → Bool)
    (conf : String → Nat → Bool) (app : AppData)
    (h : (check_apps_one raw conf app).confirmed_changes = []) :
    (check_apps_one raw conf app).write = none
    ∧ (check_apps_one raw conf app).notified = false := by
  simp only [check_apps_one] at h ⊢
  split at h
  · rename_i h1
    rw [if_pos h1]
    exact ⟨rfl, rfl⟩
  · rename_i h1
    rw [if_neg h1]
    split at h
    · rename_i h2
      rw [if_pos h2]
      exact ⟨rfl, rfl⟩
    · rename_i h2
      exact absurd (List.isEmpty_iff.mpr h) h2

/-- Witness for `no_confirmed_changes_no_op`: a raw flip is raised but every
confirmation probe disagrees, so the candidate is rejected. -/
theorem no_confirmed_changes_no_op_witness :
    (check_apps_one (fun _ => true) (fun _ _ => false)
        ⟨"2", "B", false, none, ["us"], []⟩).confirmed_changes = []
    ∧ (check_apps_one (fun _ => true) (fun _ _ => false)
          ⟨"2", "B", false, none, ["us"], []⟩).write = none
      ∧ (check_apps_one (fun _ => true) (fun _ _ => false)
          ⟨"2", "B", false, none, ["us"], []⟩).notified = false :=
  ⟨by decide,
   no_confirmed_changes_no_op (fun _ => true) (fun _ _ => false)
     ⟨"2", "B", false, none, ["us"], []⟩ (by decide)⟩

/-- **C8.** An app whose region list is empty is skipped entirely: no probes,
no change candidates, no confirmed changes, no sheet write, no
notification. -/
theorem empty_geos_no_op (raw : String → Bool)
    (conf : String → Nat → Bool) (app : AppData)
    (h : app.geos = []) :
    check_apps_one raw conf app
      = { status_changes := [], confirmed_changes := [], write := none,
          notified := false, probes := 0 } := by
  simp [check_apps_one, h]

/-- Witness for `empty_geos_no_op` at a concrete app with no regions. -/
theorem empty_geos_no_op_witness :
    (⟨"3", "C", true, none, [], []⟩ : AppData).geos = []
    ∧ check_apps_one (fun _ => true) (fun _ _ => true)
        ⟨"3", "C", true, none, [], []⟩
      = { status_changes := [], confirmed_changes := [], write := none,
          notified := false, probes := 0 } :=
  ⟨rfl,
   empty_geos_no_op (fun _ => true) (fun _ _ => true)
     ⟨"3", "C", true, none, [], []⟩ rfl⟩

/-- Helper: one delivery-loop step extends the attempted list by exactly the
visited chat. -/
theorem telegramStep_fst (outcome : Int → SendOutcome)
    (st : List Int × List Int) (chat_id : Int) :
    (telegramStep outcome st chat_id).1 = st.1 ++ [chat_id] := by
  unfold telegramStep
  cases outcome chat_id with
  | ok => rfl
  | err msg =>
      dsimp only
      split <;> rfl

/-- Helper: one delivery-loop step adds the visited chat to the removal list
exactly when its outcome is a "gone" error. -/
theorem telegramStep_snd (outcome : Int → SendOutcome)
    (st : List Int × List Int) (chat_id : Int) :
    (telegramStep outcome st chat_id).2
      = st.2 ++ (if goneFor outcome chat_id then [chat_id] else []) := by
  unfold telegramStep goneFor
  cases outcome chat_id with
  | ok => simp
  | err msg =>
      dsimp only
      split <;> simp_all

/-- Helper: the delivery loop visits every chat, in order. -/
theorem foldl_telegramStep_fst (outcome : Int → SendOutcome) :
    ∀ (chats : List Int) (st : List Int × List Int),
      (chats.foldl (telegramStep outcome) st).1 = st.1 ++ chats := by
  intro chats
  induction chats with
  | nil => intro st; simp
  | cons a t ih =>
      intro st
      rw [List.foldl_cons, ih, telegramStep_fst]
      simp

/-- Helper: the delivery loop marks for removal exactly the chats whose
outcome is a "gone" error. -/
theorem foldl_telegramStep_snd (outcome : Int → SendOutcome) :
    ∀ (chats : List Int) (st : List Int × List Int),
      (chats.foldl (telegramStep outcome) st).2
        = st.2 ++ chats.filter (goneFor outcome) := by
  intro chats
  induction chats with
  | nil => intro st; simp
  | cons a t ih =>
      intro st
      rw [List.foldl_cons, ih, telegramStep_snd]
      by_cases h : goneFor outcome a = true <;>
        simp [List.filter_cons, h]

/-- Helper: `send_telegram_message` attempts delivery to every active chat in
iteration order. -/
theorem send_telegram_attempted (outcome : Int → SendOutcome)
    (chats : List Int) :
    (send_telegram_message outcome chats).attempted = chats := by
  unfold send_telegram_message
  dsimp only
  rw [foldl_telegramStep_fst]
  rfl

/-- Helper: the active set after `send_telegram_message` is the previous set
minus the chats whose outcome was a "gone" error. -/
theorem send_telegram_active (outcome : Int → SendOutcome)
    (chats : List Int) :
    (send_telegram_message outcome chats).active
      = chats.filter
          (fun c => !(decide (c ∈ chats.filter (goneFor outcome)))) := by
  unfold send_telegram_message
  dsimp only
  rw [foldl_telegramStep_snd]
  rfl

/-- **C6.** Delivery isolation: `send_telegram_message` attempts delivery to
every registered chat in iteration order even when some chat's delivery
fails, and a chat whose delivery fails with a non-"gone" error is retained in
the active set for future notifications. -/
theorem telegram_delivery_isolation (outcome : Int → SendOutcome)
    (chats : List Int) (c : Int) (msg : String)
    (hc : c ∈ chats) (hout : outcome c = SendOutcome.err msg)
    (hgone : isGoneError msg = false) :
    (send_telegram_message outcome chats).attempted = chats
    ∧ c ∈ (send_telegram_message outcome chats).active := by
  refine ⟨send_telegram_attempted outcome chats, ?_⟩
  rw [send_telegram_active]
  refine List.mem_filter.mpr ⟨hc, ?_⟩
  have hnot : c ∉ chats.filter (goneFor outcome) := by
    intro hmem
    have h2 := (List.mem_filter.mp hmem).2
    simp [goneFor, hout, hgone] at h2
  simp [hnot]

/-- Witness for `telegram_delivery_isolation`: two chats, the first failing
with a retryable error. -/
theorem telegram_delivery_isolation_witness :
    (send_telegram_message
        (fun c => if c == 1 then SendOutcome.err "Internal Server Error"
                  else SendOutcome.ok) [1, 2]).attempted = [1, 2]
    ∧ (1 : Int) ∈ (send_telegram_message
        (fun c => if c == 1 then SendOutcome.err "Internal Server Error"
                  else SendOutcome.ok) [1, 2]).active :=
  telegram_delivery_isolation
    (fun c => if c == 1 then SendOutcome.err "Internal Server Error"
              else SendOutcome.ok)
    [1, 2] 1 "Internal Server Error" (by decide) (by decide) (by decide)

/-- **C7.** Monotonic deregistration: a chat that was active is dropped by a
notification only when its delivery outcome is a "gone" error ("blocked" or
"not found"), and a chat absent from the active set stays absent under any
sequence of notifications and registrations that contains no registration of
that chat. -/
theorem chat_removal_monotonic (outcome : Int → SendOutcome)
    (chats start : List Int) (ops : List ChatOp) (c : Int)
    (hmem : c ∈ chats)
    (hrem : c ∉ (send_telegram_message outcome chats).active)
    (hstart : c ∉ start)
    (hops : ∀ op ∈ ops, op ≠ ChatOp.register c) :
    (∃ msg, outcome c = SendOutcome.err msg ∧ isGoneError msg = true)
    ∧ c ∉ runChatOps start ops := by
  constructor
  · rw [send_telegram_active] at hrem
    have hgone : goneFor outcome c = true := by
      by_contra hng
      refine hrem (List.mem_filter.mpr ⟨hmem, ?_⟩)
      have : c ∉ chats.filter (goneFor outcome) := by
        intro hmem2
        exact hng (List.mem_filter.mp hmem2).2
      simp [this]
    rw [goneFor] at hgone
    cases hcase : outcome c with
    | ok => rw [hcase] at hgone; exact absurd hgone (by simp)
    | err msg =>
        rw [hcase] at hgone
        exact ⟨msg, rfl, hgone⟩
  · clear hmem hrem
    have general : ∀ (ops' : List ChatOp) (st : List Int), c ∉ st →
        (∀ op ∈ ops', op ≠ ChatOp.register c) → c ∉ runChatOps st ops' := by
      intro ops'
      induction ops' with
      | nil =>
          intro st hst _
          simpa [runChatOps] using hst
      | cons op rest ih =>
          intro st hst hops'
          have hstep : c ∉ applyChatOp st op := by
            cases op with
            | notify outcome' =>
                rw [applyChatOp, send_telegram_active]
                intro hmem2
                exact hst (List.mem_filter.mp hmem2).1
            | register d =>
                have hdc : d ≠ c := by
                  intro hdc
                  exact hops' (ChatOp.register d) (List.mem_cons_self _ _)
                    (by rw [hdc])
                rw [applyChatOp]
                split
                · exact hst
                · intro hmem2
                  rcases List.mem_append.mp hmem2 with h | h
                  · exact hst h
                  · exact hdc (List.mem_singleton.mp h).symm
          have hrw : runChatOps st (op :: rest)
              = runChatOps (applyChatOp st op) rest := rfl
          rw [hrw]
          exact ih (applyChatOp st op) hstep
            (fun o ho => hops' o (List.mem_cons_of_mem _ ho))
    exact general ops start hstart hops

/-- Witness for `chat_removal_monotonic`: chat 5 is dropped after a
"blocked" delivery error, and later events that never register chat 5 do not
re-add it. -/
theorem chat_removal_monotonic_witness :
    (∃ msg, (fun _ : Int => SendOutcome.err
        "Forbidden: bot was blocked by the user") 5 = SendOutcome.err msg
      ∧ isGoneError msg = true)
    ∧ (5 : Int) ∉ runChatOps [] [ChatOp.register 7] :=
  chat_removal_monotonic
    (fun _ => SendOutcome.err "Forbidden: bot was blocked by the user")
    [5] [] [ChatOp.register 7] 5
    (by decide) (by decide) (by decide)
    (by
      intro op hop
      rw [List.mem_singleton.mp hop]
      intro hEq
      cases hEq)

/-- **C9.** Row parsing is total for rows of any length, with the defaults of
`read_sheet_data`: fewer than 2 cells gives name "Unknown App", fewer than 3
gives availability false, fewer than 4 gives no timestamp, fewer than 5
gives an empty region list. -/
theorem parse_row_defaults (headers row : List String) :
    (row.length < 2 → (parseRow headers row).app_name = "Unknown App")
    ∧ (row.length < 3 → (parseRow headers row).is_available = false)
    ∧ (row.length < 4 → (parseRow headers row).last_update = none)
    ∧ (row.length < 5 → (parseRow headers row).geos = []) := by
  refine ⟨fun h => ?_, fun h => ?_, fun h => ?_, fun h => ?_⟩ <;>
    · simp only [parseRow]
      rw [if_neg (by omega)]

/-- Witness for `parse_row_defaults` at the empty row. -/
theorem parse_row_defaults_witness :
    (parseRow [] []).app_name = "Unknown App"
    ∧ (parseRow [] []).is_available = false
    ∧ (parseRow [] []).last_update = none
    ∧ (parseRow [] []).geos = [] :=
  ⟨(parse_row_defaults [] []).1 (by decide),
   (parse_row_defaults [] []).2.1 (by decide),
   (parse_row_defaults [] []).2.2.1 (by decide),
   (parse_row_defaults [] []).2.2.2 (by decide)⟩

/-- **C10.** Availability persistence round-trips: the value `update_sheet`
writes for a verdict `b` ("true" or "false", lowercase) parses back to `b`
under the rule of `read_sheet_data`, both directly and through a full row
parse. -/
theorem availability_round_trip (b : Bool) (id name : String)
    (headers : List String) :
    parse_available (format_available b) = b
    ∧ (parseRow headers [id, name, format_available b]).is_available = b := by
  have hdir : parse_available (format_available b) = b := by
    cases b <;> decide
  refine ⟨hdir, ?_⟩
  simp only [parseRow]
  rw [if_pos
    (show ([id, name, format_available b] : List String).length > 2 by simp)]
  exact hdir
